import Mathlib

set_option maxRecDepth 100000

/-
Verification of the binance-bot trading core.

Shallow embedding of the decision-and-execution pipeline:
risk engine (checkGlobalTrading, validateOrder), orchestration loop body
(runBot iteration control flow), symbol cooldown map, position monitor
(trailing stop, sell path), order executor (quantization, minNotional
buffer), and the three-gate MACD strategy.  JavaScript numbers are
modelled as exact rationals; the Map of the cooldown module as an
association list; database mutation as explicit record update.
-/

/- ================= Risk engine (riskEngine.ts) ================= -/

/-- Result record of a risk check, as returned by checkGlobalTrading and
validateOrder: an allowed flag plus a reason string. -/
structure OrderValidation where
  allowed : Bool
  reason : String
deriving DecidableEq, Repr

/-- Embedding of checkGlobalTrading: denies when the kill switch is on,
then when trading is disabled in bot state, else allows. -/
def checkGlobalTrading (killSwitch tradingEnabled : Bool) : OrderValidation :=
  if killSwitch then { allowed := false, reason := "Kill switch is active" }
  else if tradingEnabled = false then { allowed := false, reason := "Trading is disabled" }
  else { allowed := true, reason := "OK" }

/-- Embedding of validateOrder: global check first, then the risk-per-trade
limit, then the per-symbol cap on concurrent OPEN positions.  The function
receives no decision score; the source passes riskAmountUSDT as
orderValueUSDT. -/
def validateOrder (killSwitch tradingEnabled : Bool)
    (orderValueUSDT riskPerTradeUSDT : ℚ)
    (openPositionsCount maxOpenOrdersPerSymbol : ℕ) : OrderValidation :=
  let globalCheck := checkGlobalTrading killSwitch tradingEnabled
  if globalCheck.allowed = false then globalCheck
  else if riskPerTradeUSDT < orderValueUSDT then
    { allowed := false, reason := "Order value exceeds risk limit" }
  else if maxOpenOrdersPerSymbol ≤ openPositionsCount then
    { allowed := false, reason := "Max open positions reached for symbol" }
  else { allowed := true, reason := "OK" }

/- ================= Orchestration loop body (botRunner.ts) ================= -/

/-- Which phases of one runBot loop iteration were reached. -/
structure IterationTrace where
  gateAllowed : Bool
  monitorRan : Bool
  entryPhaseReached : Bool
deriving DecidableEq, Repr

/-- Embedding of the control flow of one runBot loop iteration: the global
trading gate is checked first and a denial sleeps and continues to the next
iteration, so the statements after it (symbol refresh, monitorPositions,
signal computation, order execution) are not reached in that iteration. -/
def runBotIteration (killSwitch tradingEnabled : Bool) : IterationTrace :=
  let tradingCheck := checkGlobalTrading killSwitch tradingEnabled
  if tradingCheck.allowed = false then
    { gateAllowed := false, monitorRan := false, entryPhaseReached := false }
  else
    { gateAllowed := true, monitorRan := true, entryPhaseReached := true }

/- ================= Symbol cooldown (symbolCooldown.ts) ================= -/

/-- Close reasons that key the cooldown duration table. -/
inductive CooldownReason where
  | stop_loss
  | take_profit
  | manual_sell
deriving DecidableEq, Repr

/-- Entry stored in the in-memory cooldown map. -/
structure CooldownEntry where
  symbol : String
  reason : CooldownReason
  closedAt : ℤ
  lossPercent : Option ℚ
deriving DecidableEq, Repr

/-- Cooldown durations in milliseconds: one hour after a stop loss,
thirty minutes after a manual sell, fifteen minutes after a take profit. -/
def COOLDOWN_DURATION : CooldownReason → ℤ
  | .stop_loss => 60 * 60 * 1000
  | .manual_sell => 30 * 60 * 1000
  | .take_profit => 15 * 60 * 1000

/-- The in-memory Map keyed by symbol, as an association list. -/
abbrev CooldownMap := List (String × CooldownEntry)

/-- Lookup in the cooldown map (Map.get). -/
def mapGet (m : CooldownMap) (k : String) : Option CooldownEntry :=
  (m.find? (fun p => p.1 == k)).map (fun p => p.2)

/-- Removal from the cooldown map (Map.delete). -/
def mapDelete (m : CooldownMap) (k : String) : CooldownMap :=
  m.filter (fun p => !(p.1 == k))

/-- Insertion or replacement in the cooldown map (Map.set). -/
def mapSet (m : CooldownMap) (k : String) (v : CooldownEntry) : CooldownMap :=
  (k, v) :: mapDelete m k

/-- Embedding of addSymbolCooldown: builds a fresh entry from the call
arguments and stores it with Map.set, replacing any previous entry. -/
def addSymbolCooldown (m : CooldownMap) (symbol : String) (reason : CooldownReason)
    (now : ℤ) (lossPercent : Option ℚ) : CooldownMap :=
  mapSet m symbol { symbol := symbol, reason := reason, closedAt := now, lossPercent := lossPercent }

/-- Embedding of isSymbolOnCooldown: true while the elapsed time is
strictly below the reason duration; once elapsed reaches the duration the
entry is deleted (lazy eviction) and false is returned.  Returns the
updated map alongside the flag. -/
def isSymbolOnCooldown (m : CooldownMap) (symbol : String) (now : ℤ) : Bool × CooldownMap :=
  match mapGet m symbol with
  | none => (false, m)
  | some entry =>
    let elapsed := now - entry.closedAt
    let cooldownDuration := COOLDOWN_DURATION entry.reason
    if elapsed < cooldownDuration then (true, m)
    else (false, mapDelete m symbol)

/- ================= Position monitor (positionMonitor.ts) ================= -/

/-- Exchange trading filters for one symbol, cached per process. -/
structure SymbolFilters where
  minQty : ℚ
  stepSize : ℚ
  minNotional : ℚ
deriving DecidableEq, Repr

/-- Embedding of roundToStepSize: floor the quantity to a whole number of
steps (identical formula in executor.ts and positionMonitor.ts). -/
def roundToStepSize (quantity stepSize : ℚ) : ℚ :=
  (⌊quantity / stepSize⌋ : ℤ) * stepSize

/-- Row of the positions table, restricted to the fields the monitor and
executor read or write. -/
structure PositionRow where
  symbol : String
  entry_price : ℚ
  quantity : ℚ
  current_price : ℚ
  stop_loss_price : Option ℚ
  take_profit_price : Option ℚ
  initial_stop_loss_price : Option ℚ
  highest_price : Option ℚ
  trailing_stop_enabled : Bool
  status : String
deriving DecidableEq, Repr

/-- Embedding of the updatePositionPrice query: sets current_price, and
when a highest-price argument is passed, raises highest_price to the
greatest of the previous highest (falling back to the entry price) and
the argument. -/
def updatePositionPrice (position : PositionRow) (currentPrice : ℚ)
    (highestPrice : Option ℚ) : PositionRow :=
  { position with
    current_price := currentPrice,
    highest_price :=
      match highestPrice with
      | some h => some (max (position.highest_price.getD position.entry_price) h)
      | none => position.highest_price }

/-- Embedding of checkTrailingStop: below the activation threshold nothing
happens; otherwise the candidate stop is highest price times one minus the
distance percent, floored at the entry price, and the stored stop loss is
replaced only when the candidate is strictly higher than the current
stored stop (stop_loss_price, falling back to initial_stop_loss_price,
falling back to zero). -/
def checkTrailingStop (position : PositionRow) (currentPrice trailingActivation trailingDistance : ℚ) :
    PositionRow :=
  let pnlPercent := (currentPrice - position.entry_price) / position.entry_price * 100
  let highestPriceValue := position.highest_price.getD position.entry_price
  if pnlPercent < trailingActivation then position
  else
    let trailingStopPrice := highestPriceValue * (1 - trailingDistance / 100)
    let minStopLoss := position.entry_price
    let newStopLoss := max trailingStopPrice minStopLoss
    let currentStopLoss := position.stop_loss_price.getD (position.initial_stop_loss_price.getD 0)
    if currentStopLoss < newStopLoss then { position with stop_loss_price := some newStopLoss }
    else position

/-- One iteration of monitoring as it reaches the trailing-stop logic for
an open position: checkPosition first persists the current price with
updatePositionPrice (passing the current price as the highest-price
argument), then checkTrailingStop runs on that row. -/
def trailingStep (trailingActivation trailingDistance : ℚ) (position : PositionRow)
    (currentPrice : ℚ) : PositionRow :=
  checkTrailingStop (updatePositionPrice position currentPrice (some currentPrice))
    currentPrice trailingActivation trailingDistance

/-- Observable effects of one executeSellOrder call in the monitor:
whether an exchange order was submitted and with what quantity, whether an
Order row was inserted, the close status applied to the position (none
when the position is left untouched), the cooldown registered, and the
resulting position status. -/
structure SellEffects where
  submittedQty : Option ℚ
  orderInserted : Bool
  closedStatus : Option String
  cooldownReason : Option CooldownReason
  positionStatus : String
deriving DecidableEq, Repr

/-- Embedding of the monitor executeSellOrder: the position quantity is
floored to the step size; below minQty the sell is blocked and the
function returns; when quantity times current price is below minNotional
the sell is blocked and the function returns; otherwise the order is
submitted, an Order row inserted, the position closed with the close
reason, and a cooldown registered for STOPPED_OUT and TAKE_PROFIT. -/
def executeSellOrder (position : PositionRow) (currentPrice : ℚ)
    (filters : SymbolFilters) (closeReason : String) : SellEffects :=
  let quantity := roundToStepSize position.quantity filters.stepSize
  if quantity < filters.minQty then
    { submittedQty := none, orderInserted := false, closedStatus := none,
      cooldownReason := none, positionStatus := position.status }
  else
    let orderValue := quantity * currentPrice
    if orderValue < filters.minNotional then
      { submittedQty := none, orderInserted := false, closedStatus := none,
        cooldownReason := none, positionStatus := position.status }
    else
      let cooldown : Option CooldownReason :=
        if closeReason = "STOPPED_OUT" then some .stop_loss
        else if closeReason = "TAKE_PROFIT" then some .take_profit
        else none
      { submittedQty := some quantity, orderInserted := true, closedStatus := some closeReason,
        cooldownReason := cooldown, positionStatus := closeReason }

/- ================= Order executor (executor.ts) ================= -/

/-- Buffer above the exchange minNotional applied to entries, 1.2 in the
source. -/
def MIN_NOTIONAL_BUFFER : ℚ := 12 / 10

/-- Trading signal of a Decision. -/
inductive Signal where
  | BUY
  | SELL
  | HOLD
deriving DecidableEq, Repr

/-- Decision consumed by the executor: symbol, signal, score, and the
current price carried in the meta object. -/
structure Decision where
  symbol : String
  signal : Signal
  score : ℚ
  currentPrice : ℚ
  reason : String
deriving DecidableEq, Repr

/-- Embedding of calculateOrderQuantity: risk amount divided by the price
risk per unit; a non-positive denominator throws in the source, modelled
as none. -/
def calculateOrderQuantity (entryPrice stopLossPrice riskAmountUSDT : ℚ) : Option ℚ :=
  let priceRiskPerUnit := entryPrice - stopLossPrice
  if priceRiskPerUnit ≤ 0 then none
  else some (riskAmountUSDT / priceRiskPerUnit)

/-- Environment of one executeBuyOrder call: effective strategy settings,
account balance, configuration and the collaborators read during the
call (symbol filters, bot-state flags, open-position count, and whether
the exchange accepts the submitted order). -/
structure ExecEnv where
  now : ℤ
  stopLossPercent : ℚ
  takeProfitPercent : ℚ
  riskPerTradePercent : ℚ
  baseBalance : ℚ
  maxTradingCapitalPercent : ℚ
  filters : SymbolFilters
  killSwitch : Bool
  tradingEnabled : Bool
  riskPerTradeUSDT : ℚ
  openPositionsCount : ℕ
  maxOpenOrdersPerSymbol : ℕ
  orderSucceeds : Bool
deriving DecidableEq, Repr

/-- Outcome of one executeBuyOrder call.  A submitted order carries the
final quantized quantity and the stop-loss and take-profit prices of the
created position. -/
inductive BuyOutcome where
  | cooldown
  | noBalance
  | tooSmall
  | insufficientCapital
  | validationRejected (reason : String)
  | exchangeError
  | thrownError
  | submitted (quantity stopLossPrice takeProfitPrice : ℚ)
deriving DecidableEq, Repr

/-- Embedding of executeBuyOrder: cooldown check, balance check, position
sizing from risk, flooring to the step size, minQty check, raising the
quantity to the buffered minimum notional when below it, capital check,
risk validation, then submission.  Returns the outcome together with the
cooldown map as left by the lookup. -/
def executeBuyOrder (env : ExecEnv) (m : CooldownMap) (decision : Decision) :
    BuyOutcome × CooldownMap :=
  let cooldownCheck := isSymbolOnCooldown m decision.symbol env.now
  let m1 := cooldownCheck.2
  if cooldownCheck.1 then (.cooldown, m1)
  else if env.baseBalance = 0 then (.noBalance, m1)
  else
    let tradingCapital := env.baseBalance * env.maxTradingCapitalPercent / 100
    let riskAmountUSDT := tradingCapital * env.riskPerTradePercent / 100
    let stopLossPrice := decision.currentPrice * (1 - env.stopLossPercent / 100)
    let takeProfitPrice := decision.currentPrice * (1 + env.takeProfitPercent / 100)
    match calculateOrderQuantity decision.currentPrice stopLossPrice riskAmountUSDT with
    | none => (.thrownError, m1)
    | some rawQuantity =>
      let quantity := roundToStepSize rawQuantity env.filters.stepSize
      if quantity < env.filters.minQty then (.tooSmall, m1)
      else
        let orderValueUSDT := quantity * decision.currentPrice
        let minNotionalWithBuffer := env.filters.minNotional * MIN_NOTIONAL_BUFFER
        let quantity2 :=
          if orderValueUSDT < minNotionalWithBuffer then
            (⌈minNotionalWithBuffer / decision.currentPrice / env.filters.stepSize⌉ : ℤ) *
              env.filters.stepSize
          else quantity
        let orderValueUSDT2 := quantity2 * decision.currentPrice
        if tradingCapital < orderValueUSDT2 then (.insufficientCapital, m1)
        else
          let validation := validateOrder env.killSwitch env.tradingEnabled riskAmountUSDT
            env.riskPerTradeUSDT env.openPositionsCount env.maxOpenOrdersPerSymbol
          if validation.allowed = false then (.validationRejected validation.reason, m1)
          else if env.orderSucceeds then (.submitted quantity2 stopLossPrice takeProfitPrice, m1)
          else (.exchangeError, m1)

/-- Per-decision result of executeDecisions: BUY decisions get the
executeBuyOrder outcome; SELL decisions are not implemented and are
recorded as a failed result; HOLD decisions produce no result. -/
inductive DecisionResult where
  | buyResult (symbol : String) (outcome : BuyOutcome)
  | sellNotImplemented (symbol : String)
deriving DecidableEq, Repr

/-- Embedding of executeDecisions: walks the decision list, running
executeBuyOrder for BUY (threading the cooldown map), appending a failed
result with reason SELL logic not implemented for SELL, and skipping
HOLD. -/
def executeDecisions (env : ExecEnv) (m : CooldownMap) :
    List Decision → List DecisionResult × CooldownMap
  | [] => ([], m)
  | decision :: rest =>
    match decision.signal with
    | .BUY =>
      let r := executeBuyOrder env m decision
      let tail := executeDecisions env r.2 rest
      (.buyResult decision.symbol r.1 :: tail.1, tail.2)
    | .SELL =>
      let tail := executeDecisions env m rest
      (.sellNotImplemented decision.symbol :: tail.1, tail.2)
    | .HOLD => executeDecisions env m rest

/- ================= MACD strategy (macdStrategy.ts) ================= -/

/-- Candle as parsed by the market-data module.  The open price field is
renamed because open is a reserved word. -/
structure Candle where
  openTime : ℤ
  openPrice : ℚ
  high : ℚ
  low : ℚ
  close : ℚ
  volume : ℚ
  closeTime : ℤ
deriving DecidableEq, Repr

/-- One point of a MACD series. -/
structure MacdPoint where
  timestamp : ℤ
  macd : ℚ
  signal : ℚ
  histogram : ℚ
deriving DecidableEq, Repr

/-- Minimum number of D1 MACD points for a daily bias. -/
def MIN_D1_MACD_POINTS : ℕ := 10

/-- Minimum number of H4 MACD points for the trend gate. -/
def MIN_H4_MACD_POINTS : ℕ := 30

/-- Lookback (points) for the H4 crossover scan. -/
def H4_CROSS_LOOKBACK : ℕ := 20

/-- Lookback (points) for the H4 percentile stats. -/
def H4_STATS_LOOKBACK : ℕ := 120

/-- Embedding of emaSeriesAligned: full-length output aligned with the
input, none until the SMA seed at index period minus one, then the
recursive EMA with factor two over period plus one. -/
def emaSeriesAligned (values : List ℚ) (period : ℕ) : List (Option ℚ) :=
  if values.length = 0 ∨ period < 1 then []
  else if values.length < period then List.replicate values.length none
  else
    let k : ℚ := 2 / (period + 1)
    let seed := (values.take period).sum / period
    List.replicate (period - 1) none ++
      (((values.drop period).scanl (fun ema v => v * k + ema * (1 - k)) seed).map some)

/-- Maps the signal EMA values (computed over the non-null MACD values)
back onto the full-length aligned array: each non-null MACD slot consumes
the next signal value, null slots stay null. -/
def mapSignalBack : List (Option ℚ) → List (Option ℚ) → List (Option ℚ)
  | [], _ => []
  | none :: rest, signalRest => none :: mapSignalBack rest signalRest
  | some _ :: rest, [] => none :: mapSignalBack rest []
  | some _ :: rest, s :: signalRest => s :: mapSignalBack rest signalRest

/-- Builds the MacdPoint list, skipping indices until both the MACD and
the signal value are available. -/
def buildMacdPoints : List Candle → List (Option ℚ) → List (Option ℚ) → List MacdPoint
  | candle :: cs, some macdV :: ms, some signalV :: ss =>
    { timestamp := candle.openTime, macd := macdV, signal := signalV,
      histogram := macdV - signalV } :: buildMacdPoints cs ms ss
  | _ :: cs, _ :: ms, _ :: ss => buildMacdPoints cs ms ss
  | _, _, _ => []

/-- Embedding of computeMacdSeries: MACD twelve twenty-six nine over the
candle closes, with aligned EMA arrays and the signal line computed on the
non-null MACD values. -/
def computeMacdSeries (candles : List Candle) : List MacdPoint :=
  if candles.length < 26 then []
  else
    let closes := candles.map (fun c => c.close)
    let ema12Values := emaSeriesAligned closes 12
    let ema26Values := emaSeriesAligned closes 26
    let macdRawValues := List.zipWith
      (fun a b =>
        match a, b with
        | some x, some y => some (x - y)
        | _, _ => none)
      ema12Values ema26Values
    let macdNonNull := macdRawValues.filterMap id
    let signalNonNull := emaSeriesAligned macdNonNull 9
    let signalValues := mapSignalBack macdRawValues signalNonNull
    buildMacdPoints candles macdRawValues signalValues

/-- Percentile statistics of the MACD values over a lookback window. -/
structure MacdStats where
  min : ℚ
  max : ℚ
  p25 : ℚ
  p50 : ℚ
  p75 : ℚ
deriving DecidableEq, Repr

/-- Insertion into a sorted list, ascending. -/
def insertSorted (x : ℚ) : List ℚ → List ℚ
  | [] => [x]
  | y :: ys => if x ≤ y then x :: y :: ys else y :: insertSorted x ys

/-- Ascending sort, as the numeric sort of the source. -/
def sortAsc (l : List ℚ) : List ℚ := l.foldr insertSorted []

/-- Index used by the percentile helper: ceiling of p over one hundred
times the length, minus one, clamped at zero. -/
def percentileIndex (p : ℚ) (len : ℕ) : ℕ := (max 0 (⌈p / 100 * len⌉ - 1)).toNat

/-- Embedding of computeMacdStats over the last lookback points. -/
def computeMacdStats (macdSeries : List MacdPoint) (lookback : ℕ) : MacdStats :=
  let macdValues := (macdSeries.drop (macdSeries.length - lookback)).map (fun pt => pt.macd)
  if macdValues.length = 0 then { min := 0, max := 0, p25 := 0, p50 := 0, p75 := 0 }
  else
    let sorted := sortAsc macdValues
    let len := sorted.length
    { min := (sorted.get? 0).getD 0,
      max := (sorted.get? (len - 1)).getD 0,
      p25 := (sorted.get? (percentileIndex 25 len)).getD 0,
      p50 := (sorted.get? (percentileIndex 50 len)).getD 0,
      p75 := (sorted.get? (percentileIndex 75 len)).getD 0 }

/-- Daily bias of Gate 1. -/
inductive Bias where
  | BULLISH
  | BEARISH
  | NEUTRAL
deriving DecidableEq, Repr

/-- Trigger direction of Gate 2. -/
inductive Direction where
  | LONG
  | SHORT
  | NONE
deriving DecidableEq, Repr

/-- Embedding of computeDailyBiasFromSeries (Gate 1): BULLISH when the
latest MACD is above its signal which is above zero with separation
exceeding five percent of the MACD range, BEARISH symmetric, else
NEUTRAL; too few points or a degenerate range give NEUTRAL. -/
def computeDailyBiasFromSeries (macdSeries : List MacdPoint) : Bias :=
  if macdSeries.length < MIN_D1_MACD_POINTS then .NEUTRAL
  else
    match macdSeries.getLast? with
    | none => .NEUTRAL
    | some latestMacd =>
      let stats := computeMacdStats macdSeries macdSeries.length
      let macdRange := stats.max - stats.min
      if macdRange ≤ 0 then .NEUTRAL
      else
        let minSeparation := macdRange * (5 / 100)
        if latestMacd.signal < latestMacd.macd ∧ 0 < latestMacd.signal ∧
            minSeparation < latestMacd.macd - latestMacd.signal then .BULLISH
        else if latestMacd.macd < latestMacd.signal ∧ latestMacd.signal < 0 ∧
            minSeparation < latestMacd.signal - latestMacd.macd then .BEARISH
        else .NEUTRAL

/-- Whether index i of the series is a crossover candle: the previous
point has MACD on one side of the signal (inclusive) and the current
point strictly on the other side. -/
def isCrossoverAt (s : List MacdPoint) (i : ℕ) : Bool :=
  match s.get? i, s.get? (i - 1) with
  | some curr, some prev =>
    (decide (prev.macd ≤ prev.signal) && decide (curr.signal < curr.macd)) ||
    (decide (prev.signal ≤ prev.macd) && decide (curr.macd < curr.signal))
  | _, _ => false

/-- Backwards scan from index i down to start, returning the first
crossover index found or minus one. -/
def findCrossoverDown (s : List MacdPoint) (start : ℕ) : ℕ → ℤ
  | 0 => -1
  | i + 1 =>
    if i + 1 < start then -1
    else if isCrossoverAt s (i + 1) then ((i : ℤ) + 1)
    else findCrossoverDown s start i

/-- Embedding of findRecentCrossover: scan backwards from the end of the
series, not going below index max one (length minus lookback). -/
def findRecentCrossover (macdSeries : List MacdPoint) (lookback : ℕ) : ℤ :=
  findCrossoverDown macdSeries (max 1 (macdSeries.length - lookback)) (macdSeries.length - 1)

/-- Result record of Gate 2. -/
structure H4SignalResult where
  direction : Direction
  recentCrossIndex : ℤ
  strengthOk : Bool
  strengthReason : String
deriving DecidableEq, Repr

/-- Embedding of computeH4Signal (Gate 2): find the most recent crossover
within the lookback, require its direction to match the daily bias, then
require the MACD value at the crossover to reach the p75 percentile for
LONG (p25 for SHORT) of the stats window. -/
def computeH4Signal (macdSeries : List MacdPoint) (bias : Bias) : H4SignalResult :=
  if macdSeries.length < MIN_H4_MACD_POINTS then
    { direction := .NONE, recentCrossIndex := -1, strengthOk := false,
      strengthReason := "NO_CROSSOVER" }
  else
    let crossoverIdx := findRecentCrossover macdSeries H4_CROSS_LOOKBACK
    if crossoverIdx < 0 then
      { direction := .NONE, recentCrossIndex := -1, strengthOk := false,
        strengthReason := "NO_CROSSOVER" }
    else
      match macdSeries.get? crossoverIdx.toNat, macdSeries.get? (crossoverIdx.toNat - 1) with
      | some crossoverPoint, some prevPoint =>
        let isBullishCrossover :=
          decide (prevPoint.macd ≤ prevPoint.signal) &&
            decide (crossoverPoint.signal < crossoverPoint.macd)
        let isBearishCrossover :=
          decide (prevPoint.signal ≤ prevPoint.macd) &&
            decide (crossoverPoint.macd < crossoverPoint.signal)
        let direction : Direction :=
          if isBullishCrossover && decide (bias = .BULLISH) then .LONG
          else if isBearishCrossover && decide (bias = .BEARISH) then .SHORT
          else .NONE
        if direction = .NONE then
          { direction := .NONE, recentCrossIndex := crossoverIdx, strengthOk := false,
            strengthReason := "BIAS_MISMATCH" }
        else
          let stats := computeMacdStats macdSeries (min H4_STATS_LOOKBACK macdSeries.length)
          let strengthOk :=
            match direction with
            | .LONG => decide (stats.p75 ≤ crossoverPoint.macd)
            | .SHORT => decide (crossoverPoint.macd ≤ stats.p25)
            | .NONE => false
          { direction := direction, recentCrossIndex := crossoverIdx, strengthOk := strengthOk,
            strengthReason := if strengthOk then "OK" else "WEAK" }
      | _, _ =>
        { direction := .NONE, recentCrossIndex := -1, strengthOk := false,
          strengthReason := "NO_CROSSOVER" }

/-- Embedding of confirmH1Histogram (Gate 3): the last three histogram
bars must all be strictly positive for LONG (strictly negative for
SHORT), and at least one of the two consecutive pairs must strictly
increase for LONG (strictly decrease for SHORT). -/
def confirmH1Histogram (macdSeries : List MacdPoint) (biasDirection : Direction) : Bool :=
  if macdSeries.length < 3 then false
  else
    let h0 := ((macdSeries.get? (macdSeries.length - 3)).map (fun p => p.histogram)).getD 0
    let h1 := ((macdSeries.get? (macdSeries.length - 2)).map (fun p => p.histogram)).getD 0
    let h2 := ((macdSeries.get? (macdSeries.length - 1)).map (fun p => p.histogram)).getD 0
    match biasDirection with
    | .LONG =>
      if ¬(0 < h0 ∧ 0 < h1 ∧ 0 < h2) then false
      else decide (1 ≤ (if h0 < h1 then 1 else 0) + ((if h1 < h2 then 1 else 0) : ℕ))
    | .SHORT =>
      if ¬(h0 < 0 ∧ h1 < 0 ∧ h2 < 0) then false
      else decide (1 ≤ (if h1 < h0 then 1 else 0) + ((if h2 < h1 then 1 else 0) : ℕ))
    | .NONE => false

/-- Meta object of a MACD decision. -/
structure MacdMeta where
  currentPrice : ℚ
  reason : String
  d1Bias : Option Bias
  h4CrossoverPrice : Option ℚ
  h4CrossoverStrength : Option String
  h1HistogramConfirm : Option Bool
  macdDebug : Option (Option MacdPoint × Option MacdPoint × Option MacdPoint)
deriving DecidableEq, Repr

/-- Decision returned by the MACD strategy. -/
structure MacdDecision where
  symbol : String
  signal : Signal
  score : ℚ
  meta : MacdMeta
deriving DecidableEq, Repr

/-- Optional indexing of a MACD series with a signed index, as the
undefined-propagating bracket access of the source. -/
def macdPointAt (s : List MacdPoint) (idx : ℤ) : Option MacdPoint :=
  if idx < 0 then none else s.get? idx.toNat

/-- Embedding of computeMacdDecision: the three-gate cascade over the
fetched candle lists (D1 for the bias, H4 for the crossover trigger, H1
for the histogram confirmation), aborting to HOLD with score zero at any
failing gate, and otherwise producing BUY for LONG or SELL for SHORT with
score three. -/
def computeMacdDecision (symbol : String) (d1Candles h4Candles h1Candles : List Candle) :
    MacdDecision :=
  if d1Candles.length < 26 then
    { symbol := symbol, signal := .HOLD, score := 0,
      meta :=
        { currentPrice := 0, reason := "Insufficient D1 candles", d1Bias := none,
          h4CrossoverPrice := none, h4CrossoverStrength := none, h1HistogramConfirm := none,
          macdDebug := none } }
  else
    let d1Macd := computeMacdSeries d1Candles
    let d1Bias := computeDailyBiasFromSeries d1Macd
    if d1Bias = .NEUTRAL then
      { symbol := symbol, signal := .HOLD, score := 0,
        meta :=
          { currentPrice := 0, reason := "Daily bias neutral", d1Bias := some .NEUTRAL,
            h4CrossoverPrice := none, h4CrossoverStrength := none, h1HistogramConfirm := none,
            macdDebug := none } }
    else if h4Candles.length < 26 then
      { symbol := symbol, signal := .HOLD, score := 0,
        meta :=
          { currentPrice := 0, reason := "Insufficient H4 candles", d1Bias := some d1Bias,
            h4CrossoverPrice := none, h4CrossoverStrength := none, h1HistogramConfirm := none,
            macdDebug := none } }
    else
      let h4Macd := computeMacdSeries h4Candles
      let h4Signal := computeH4Signal h4Macd d1Bias
      if h4Signal.direction = .NONE ∨ h4Signal.strengthOk = false then
        { symbol := symbol, signal := .HOLD, score := 0,
          meta :=
            { currentPrice := 0,
              reason :=
                if h4Signal.strengthReason = "NO_CROSSOVER" then
                  "H4 trend gate failed: No H4 crossover found in recent lookback"
                else if h4Signal.strengthReason = "BIAS_MISMATCH" then
                  "H4 trend gate failed: H4 crossover direction mismatches D1 bias"
                else "H4 trend gate failed: H4 crossover strength insufficient",
              d1Bias := some d1Bias,
              h4CrossoverPrice :=
                (macdPointAt h4Macd h4Signal.recentCrossIndex).map (fun p => p.macd),
              h4CrossoverStrength := some h4Signal.strengthReason,
              h1HistogramConfirm := none, macdDebug := none } }
      else if h1Candles.length < 26 then
        { symbol := symbol, signal := .HOLD, score := 0,
          meta :=
            { currentPrice := 0, reason := "Insufficient H1 candles", d1Bias := some d1Bias,
              h4CrossoverPrice :=
                (macdPointAt h4Macd h4Signal.recentCrossIndex).map (fun p => p.macd),
              h4CrossoverStrength := none, h1HistogramConfirm := none, macdDebug := none } }
      else
        let h1Macd := computeMacdSeries h1Candles
        let h1Confirm := confirmH1Histogram h1Macd h4Signal.direction
        if h1Confirm = false then
          { symbol := symbol, signal := .HOLD, score := 0,
            meta :=
              { currentPrice :=
                  ((h1Candles.get? (h1Candles.length - 1)).map (fun c => c.close)).getD 0,
                reason := "H1 histogram not confirming", d1Bias := some d1Bias,
                h4CrossoverPrice :=
                  (macdPointAt h4Macd h4Signal.recentCrossIndex).map (fun p => p.macd),
                h4CrossoverStrength := none, h1HistogramConfirm := some false,
                macdDebug := none } }
        else
          { symbol := symbol,
            signal := if h4Signal.direction = .LONG then .BUY else .SELL,
            score := 3,
            meta :=
              { currentPrice :=
                  ((h1Candles.get? (h1Candles.length - 1)).map (fun c => c.close)).getD 0,
                reason := "All MACD gates passed",
                d1Bias := some d1Bias,
                h4CrossoverPrice :=
                  (macdPointAt h4Macd h4Signal.recentCrossIndex).map (fun p => p.macd),
                h4CrossoverStrength := some h4Signal.strengthReason,
                h1HistogramConfirm := some true,
                macdDebug := some (d1Macd.getLast?, h4Macd.getLast?, h1Macd.getLast?) } }

/- ================= Concrete example inputs ================= -/

/-- Open long position used in concrete checks: entry 100, stop 95,
highest 110, trailing enabled. -/
def pEx : PositionRow :=
  { symbol := "ETHUSDT", entry_price := 100, quantity := 1, current_price := 100,
    stop_loss_price := some 95, take_profit_price := some 200,
    initial_stop_loss_price := some 95, highest_price := some 110,
    trailing_stop_enabled := true, status := "OPEN" }

/-- Filters with a large minQty, used to exercise the blocked sell path. -/
def sellFiltersEx : SymbolFilters := { minQty := 2, stepSize := 1, minNotional := 10 }

/-- Environment reproducing the minNotional example of the spec: balance
one thousand, full capital, risk one twentieth of a percent, stop loss
ten percent, step one thousandth, exchange minNotional ten. -/
def envC4 : ExecEnv :=
  { now := 0, stopLossPercent := 10, takeProfitPercent := 8, riskPerTradePercent := 1 / 20,
    baseBalance := 1000, maxTradingCapitalPercent := 100,
    filters := { minQty := 1 / 1000, stepSize := 1 / 1000, minNotional := 10 },
    killSwitch := false, tradingEnabled := true, riskPerTradeUSDT := 100,
    openPositionsCount := 0, maxOpenOrdersPerSymbol := 3, orderSucceeds := true }

/-- BUY decision at price one hundred for the minNotional example. -/
def dC4 : Decision :=
  { symbol := "BTCUSDT", signal := .BUY, score := 3, currentPrice := 100, reason := "macd" }

/-- SELL decision handed to the executor. -/
def dSell : Decision :=
  { symbol := "BTCUSDT", signal := .SELL, score := 3, currentPrice := 100, reason := "macd" }

/-- Environment whose risk sizing produces a quantity that floors below
minQty: risk one thousandth of a percent gives raw quantity one
thousandth, floored to zero by step one hundredth. -/
def envW3 : ExecEnv :=
  { now := 0, stopLossPercent := 10, takeProfitPercent := 8, riskPerTradePercent := 1 / 1000,
    baseBalance := 1000, maxTradingCapitalPercent := 100,
    filters := { minQty := 1 / 100, stepSize := 1 / 100, minNotional := 10 },
    killSwitch := false, tradingEnabled := true, riskPerTradeUSDT := 100,
    openPositionsCount := 0, maxOpenOrdersPerSymbol := 3, orderSucceeds := true }

/-- BUY decision for the too-small example. -/
def dW3 : Decision :=
  { symbol := "ETHUSDT", signal := .BUY, score := 2, currentPrice := 100, reason := "macd" }

/-- Environment evaluated thirty minutes after a stop-loss close. -/
def envCd30 : ExecEnv := { envW3 with now := 1800000 }

/-- Environment evaluated sixty-one minutes after a stop-loss close. -/
def envCd61 : ExecEnv := { envW3 with now := 3660000 }

/-- BUY decision for the cooldown examples. -/
def dCd : Decision :=
  { symbol := "ADAUSDC", signal := .BUY, score := 2, currentPrice := 100, reason := "macd" }

/- ================= Shared helper lemmas ================= -/

/-- Looking up a symbol right after addSymbolCooldown yields exactly the
entry built from the call arguments, for any prior map contents. -/
theorem mapGet_addSymbolCooldown (m : CooldownMap) (sym : String) (reason : CooldownReason)
    (now : ℤ) (lp : Option ℚ) :
    mapGet (addSymbolCooldown m sym reason now lp) sym =
      some { symbol := sym, reason := reason, closedAt := now, lossPercent := lp } := by
  simp [mapGet, addSymbolCooldown, mapSet, List.find?]

/-- Deleting a key removes every binding of that key. -/
theorem mapGet_mapDelete (m : CooldownMap) (k : String) : mapGet (mapDelete m k) k = none := by
  simp [mapGet, mapDelete, List.find?_eq_none]

/- ================= Claim theorems ================= -/

/-- C1: the claim says the Position Monitor runs in every iteration even
when the global trading gate denies.  The code does the opposite: when
checkGlobalTrading denies (kill switch on, shown here, or trading
disabled), the loop body sleeps and continues before monitorPositions is
reached, so the monitor is skipped — contradicting the comment in the
source that monitoring must always run. -/
theorem runBot_gate_denial_skips_position_monitor :
    (checkGlobalTrading true true).allowed = false ∧
    (runBotIteration true true).monitorRan = false ∧
    (checkGlobalTrading false false).allowed = false ∧
    (runBotIteration false false).monitorRan = false := by
  decide

/-- C5: validateOrder denies whenever the count of OPEN positions for the
symbol has reached the configured cap, whatever the other inputs; the
function never reads a decision score, so the denial is independent of
it. -/
theorem validateOrder_denies_at_position_cap :
    ∀ (killSwitch tradingEnabled : Bool) (orderValueUSDT riskPerTradeUSDT : ℚ)
      (openPositionsCount maxOpenOrdersPerSymbol : ℕ),
      maxOpenOrdersPerSymbol ≤ openPositionsCount →
      (validateOrder killSwitch tradingEnabled orderValueUSDT riskPerTradeUSDT
        openPositionsCount maxOpenOrdersPerSymbol).allowed = false := by
  intro ks te ov rpt cnt cap hcap
  cases ks <;> cases te <;> by_cases hrisk : rpt < ov <;>
    simp [validateOrder, checkGlobalTrading, hrisk, hcap]

/-- Witness for C5: two open positions at a cap of two are denied. -/
theorem validateOrder_denies_at_position_cap_witness :
    (validateOrder false true 1 100 2 2).allowed = false :=
  validateOrder_denies_at_position_cap false true 1 100 2 2 (le_refl 2)

/-- C9: when the step-floored quantity is below minQty, or its value at
the current price is below minNotional, the monitor sell path submits no
order, inserts no Order row, applies no close, registers no cooldown, and
leaves the position status unchanged — in particular an OPEN position
stays OPEN. -/
theorem sell_below_minimum_defers_exit :
    ∀ (position : PositionRow) (currentPrice : ℚ) (filters : SymbolFilters)
      (closeReason : String),
      (roundToStepSize position.quantity filters.stepSize < filters.minQty ∨
       roundToStepSize position.quantity filters.stepSize * currentPrice < filters.minNotional) →
      executeSellOrder position currentPrice filters closeReason =
        { submittedQty := none, orderInserted := false, closedStatus := none,
          cooldownReason := none, positionStatus := position.status } ∧
      (position.status = "OPEN" →
        (executeSellOrder position currentPrice filters closeReason).positionStatus = "OPEN") := by
  intro position currentPrice filters closeReason h
  have hmain : executeSellOrder position currentPrice filters closeReason =
      { submittedQty := none, orderInserted := false, closedStatus := none,
        cooldownReason := none, positionStatus := position.status } := by
    unfold executeSellOrder
    rcases h with h | h
    · simp [h]
    · by_cases h1 : roundToStepSize position.quantity filters.stepSize < filters.minQty
      · simp [h1]
      · simp [h1, h]
  refine ⟨hmain, ?_⟩
  intro hopen
  rw [hmain]
  exact hopen

/-- Witness for C9: a one-coin position against a minQty of two is left
OPEN with no effects. -/
theorem sell_below_minimum_defers_exit_witness :
    executeSellOrder pEx 100 sellFiltersEx "STOPPED_OUT" =
      { submittedQty := none, orderInserted := false, closedStatus := none,
        cooldownReason := none, positionStatus := "OPEN" } :=
  (sell_below_minimum_defers_exit pEx 100 sellFiltersEx "STOPPED_OUT"
    (Or.inl (by with_unfolding_all decide))).1

/-- C10: addSymbolCooldown replaces any existing entry for the symbol
with one built solely from the latest call (same lookup result whatever
the prior map), and the effective suppression can shrink: a stop-loss
entry at time zero still suppresses at twenty-six minutes, but after
being overwritten at ten minutes by a take-profit entry (fifteen-minute
window) the same lookup at twenty-six minutes is free. -/
theorem addSymbolCooldown_replaces_unconditionally :
    (∀ (m : CooldownMap) (sym : String) (reason : CooldownReason) (now : ℤ) (lp : Option ℚ),
      mapGet (addSymbolCooldown m sym reason now lp) sym =
        some { symbol := sym, reason := reason, closedAt := now, lossPercent := lp } ∧
      ∀ m2 : CooldownMap,
        mapGet (addSymbolCooldown m sym reason now lp) sym =
          mapGet (addSymbolCooldown m2 sym reason now lp) sym)
    ∧ ((isSymbolOnCooldown (addSymbolCooldown [] "ADAUSDC" .stop_loss 0 none)
          "ADAUSDC" 1560000).1 = true ∧
       (isSymbolOnCooldown (addSymbolCooldown (addSymbolCooldown [] "ADAUSDC" .stop_loss 0 none)
          "ADAUSDC" .take_profit 600000 none) "ADAUSDC" 1560000).1 = false) := by
  refine ⟨?_, by with_unfolding_all decide, by with_unfolding_all decide⟩
  intro m sym reason now lp
  refine ⟨mapGet_addSymbolCooldown m sym reason now lp, ?_⟩
  intro m2
  rw [mapGet_addSymbolCooldown, mapGet_addSymbolCooldown]

/-- Updating the price row never touches the stored stop loss. -/
theorem updatePositionPrice_stop (position : PositionRow) (currentPrice : ℚ)
    (highestPrice : Option ℚ) :
    (updatePositionPrice position currentPrice highestPrice).stop_loss_price =
      position.stop_loss_price := rfl

/-- One checkTrailingStop call can only keep or raise a stored stop. -/
theorem checkTrailingStop_stop_mono (position : PositionRow) (currentPrice act dist v : ℚ)
    (h : position.stop_loss_price = some v) :
    ∃ w, (checkTrailingStop position currentPrice act dist).stop_loss_price = some w ∧ v ≤ w := by
  simp only [checkTrailingStop]
  split_ifs with h1 h2
  · exact ⟨v, h, le_rfl⟩
  · refine ⟨_, rfl, ?_⟩
    rw [h] at h2
    simpa using le_of_lt h2
  · exact ⟨v, h, le_rfl⟩

/-- One monitor step (price persistence plus trailing check) can only keep
or raise a stored stop. -/
theorem trailingStep_stop_mono (act dist : ℚ) (position : PositionRow) (price v : ℚ)
    (h : position.stop_loss_price = some v) :
    ∃ w, (trailingStep act dist position price).stop_loss_price = some w ∧ v ≤ w := by
  unfold trailingStep
  exact checkTrailingStop_stop_mono _ _ _ _ v
    (by rw [updatePositionPrice_stop]; exact h)

/-- Across any sequence of monitor steps the stored stop stays defined
and never decreases. -/
theorem trailing_foldl_stop_mono (act dist : ℚ) (prices : List ℚ) (position : PositionRow)
    (v : ℚ) (h : position.stop_loss_price = some v) :
    ∃ w, ((prices.foldl (trailingStep act dist) position).stop_loss_price = some w) ∧ v ≤ w := by
  induction prices generalizing position v with
  | nil => exact ⟨v, h, le_rfl⟩
  | cons price rest ih =>
    obtain ⟨w, hw, hvw⟩ := trailingStep_stop_mono act dist position price v h
    obtain ⟨u, hu, hwu⟩ := ih (trailingStep act dist position price) w hw
    exact ⟨u, by simpa [List.foldl] using hu, le_trans hvw hwu⟩

/-- C2: across any sequence of current-price updates processed by the
trailing logic the stored stop_loss_price never decreases; and when
trailing has activated (gain percent at least the activation threshold)
any stop it writes equals the maximum of highest price times one minus
the distance percent and the entry price, hence is never below the entry
price. -/
theorem trailing_stop_ratchet :
    (∀ (act dist : ℚ) (prices : List ℚ) (position : PositionRow) (v v' : ℚ),
      position.stop_loss_price = some v →
      (prices.foldl (trailingStep act dist) position).stop_loss_price = some v' →
      v ≤ v')
    ∧ (∀ (position : PositionRow) (currentPrice act dist : ℚ),
        act ≤ (currentPrice - position.entry_price) / position.entry_price * 100 →
        (checkTrailingStop position currentPrice act dist).stop_loss_price ≠
          position.stop_loss_price →
        (checkTrailingStop position currentPrice act dist).stop_loss_price =
          some (max ((position.highest_price.getD position.entry_price) * (1 - dist / 100))
            position.entry_price) ∧
        position.entry_price ≤
          ((checkTrailingStop position currentPrice act dist).stop_loss_price.getD 0)) := by
  constructor
  · intro act dist prices position v v' hv hv'
    obtain ⟨w, hw, hvw⟩ := trailing_foldl_stop_mono act dist prices position v hv
    rw [hw] at hv'
    exact (Option.some.inj hv') ▸ hvw
  · intro position currentPrice act dist hact hneq
    simp only [checkTrailingStop] at hneq ⊢
    split_ifs at hneq ⊢ with h1 h2
    · exact absurd h1 (not_lt.mpr hact)
    · exact ⟨rfl, le_max_right _ _⟩
    · exact absurd rfl hneq

/-- Witness for C2: for the example position (stop ninety-five) one
update at price one hundred ten raises the stop to one hundred four and a
half, and the ratchet theorem yields ninety-five is at most that. -/
theorem trailing_stop_ratchet_witness :
    (([(110 : ℚ)]).foldl (trailingStep 2 5) pEx).stop_loss_price = some (209 / 2) ∧
    (95 : ℚ) ≤ 209 / 2 := by
  have hfold : (([(110 : ℚ)]).foldl (trailingStep 2 5) pEx).stop_loss_price = some (209 / 2) := by
    with_unfolding_all decide
  exact ⟨hfold, trailing_stop_ratchet.1 2 5 [110] pEx 95 (209 / 2) rfl hfold⟩

/-- When the cooldown lookup reports true, executeBuyOrder rejects with
the cooldown outcome. -/
theorem executeBuyOrder_cooldown_hit (env : ExecEnv) (m : CooldownMap) (d : Decision)
    (h : (isSymbolOnCooldown m d.symbol env.now).1 = true) :
    (executeBuyOrder env m d).1 = .cooldown := by
  simp only [executeBuyOrder, h]
  rfl

/-- When the cooldown lookup reports false, executeBuyOrder proceeds past
the cooldown check: whatever happens later, the outcome is never the
cooldown rejection. -/
theorem executeBuyOrder_cooldown_clear (env : ExecEnv) (m : CooldownMap) (d : Decision)
    (h : (isSymbolOnCooldown m d.symbol env.now).1 = false) :
    (executeBuyOrder env m d).1 ≠ .cooldown := by
  simp only [executeBuyOrder, h]
  rcases hq : calculateOrderQuantity d.currentPrice
      (d.currentPrice * (1 - env.stopLossPercent / 100))
      (env.baseBalance * env.maxTradingCapitalPercent / 100 * env.riskPerTradePercent / 100) with
    _ | rq <;>
    simp only [hq, Bool.false_eq_true, if_false] <;> split_ifs <;> simp

/-- C6: after addSymbolCooldown with reason stop loss at time t0 (and no
later writes), the lookup reports on-cooldown at every t with t minus t0
strictly below sixty minutes, and off-cooldown with the entry evicted at
every t at or past sixty minutes; accordingly executeBuyOrder rejects the
BUY with the cooldown outcome in the first window and passes the cooldown
check in the second. -/
theorem cooldown_entry_window :
    ∀ (m : CooldownMap) (sym : String) (t0 t : ℤ) (lp : Option ℚ),
      ((t - t0 < 3600000 →
          isSymbolOnCooldown (addSymbolCooldown m sym .stop_loss t0 lp) sym t =
            (true, addSymbolCooldown m sym .stop_loss t0 lp)) ∧
       (3600000 ≤ t - t0 →
          (isSymbolOnCooldown (addSymbolCooldown m sym .stop_loss t0 lp) sym t).1 = false ∧
          mapGet (isSymbolOnCooldown (addSymbolCooldown m sym .stop_loss t0 lp) sym t).2 sym =
            none))
      ∧ (∀ (env : ExecEnv) (d : Decision), d.symbol = sym → env.now = t →
          (t - t0 < 3600000 →
            (executeBuyOrder env (addSymbolCooldown m sym .stop_loss t0 lp) d).1 = .cooldown) ∧
          (3600000 ≤ t - t0 →
            (executeBuyOrder env (addSymbolCooldown m sym .stop_loss t0 lp) d).1 ≠
              .cooldown)) := by
  intro m sym t0 t lp
  have hcd : isSymbolOnCooldown (addSymbolCooldown m sym .stop_loss t0 lp) sym t =
      if t - t0 < 3600000 then (true, addSymbolCooldown m sym .stop_loss t0 lp)
      else (false, mapDelete (addSymbolCooldown m sym .stop_loss t0 lp) sym) := by
    simp only [isSymbolOnCooldown, mapGet_addSymbolCooldown m sym .stop_loss t0 lp]
    rfl
  refine ⟨⟨?_, ?_⟩, ?_⟩
  · intro hlt
    rw [hcd, if_pos hlt]
  · intro hge
    rw [hcd, if_neg (not_lt.mpr hge)]
    exact ⟨rfl, mapGet_mapDelete _ _⟩
  · intro env d hsym hnow
    constructor
    · intro hlt
      apply executeBuyOrder_cooldown_hit
      rw [hsym, hnow, hcd, if_pos hlt]
    · intro hge
      apply executeBuyOrder_cooldown_clear
      rw [hsym, hnow, hcd, if_neg (not_lt.mpr hge)]

/-- Witness for C6: a stop-loss cooldown at time zero suppresses the BUY
thirty minutes later and is evicted and passed sixty-one minutes later. -/
theorem cooldown_entry_window_witness :
    (isSymbolOnCooldown (addSymbolCooldown [] "ADAUSDC" .stop_loss 0 none)
      "ADAUSDC" 1800000).1 = true ∧
    (executeBuyOrder envCd30 (addSymbolCooldown [] "ADAUSDC" .stop_loss 0 none) dCd).1 =
      .cooldown ∧
    (isSymbolOnCooldown (addSymbolCooldown [] "ADAUSDC" .stop_loss 0 none)
      "ADAUSDC" 3660000).1 = false ∧
    (executeBuyOrder envCd61 (addSymbolCooldown [] "ADAUSDC" .stop_loss 0 none) dCd).1 ≠
      .cooldown := by
  have h30 := cooldown_entry_window [] "ADAUSDC" 0 1800000 none
  have h61 := cooldown_entry_window [] "ADAUSDC" 0 3660000 none
  refine ⟨?_, ?_, ?_, ?_⟩
  · rw [h30.1.1 (by decide)]
  · exact (h30.2 envCd30 dCd rfl rfl).1 (by decide)
  · exact (h61.1.2 (by decide)).1
  · exact (h61.2 envCd61 dCd rfl rfl).2 (by decide)

/-- C7: whenever Gate 1 computes a NEUTRAL daily bias, the MACD decision
is HOLD with score zero, and the whole decision is independent of the H4
and H1 candle data — Gates 2 and 3 are not evaluated. -/
theorem macd_neutral_bias_yields_hold :
    ∀ (sym : String) (d1 h4 h4a h1 h1a : List Candle),
      computeDailyBiasFromSeries (computeMacdSeries d1) = .NEUTRAL →
      (computeMacdDecision sym d1 h4 h1).signal = .HOLD ∧
      (computeMacdDecision sym d1 h4 h1).score = 0 ∧
      computeMacdDecision sym d1 h4 h1 = computeMacdDecision sym d1 h4a h1a := by
  intro sym d1 h4 h4a h1 h1a hbias
  by_cases hlen : d1.length < 26
  · simp [computeMacdDecision, hlen]
  · simp [computeMacdDecision, hlen, hbias]

/-- Witness for C7: empty candle data gives a NEUTRAL bias and the
theorem yields a HOLD decision with score zero. -/
theorem macd_neutral_bias_yields_hold_witness :
    computeDailyBiasFromSeries (computeMacdSeries []) = .NEUTRAL ∧
    (computeMacdDecision "BTCUSDT" [] [] []).signal = .HOLD ∧
    (computeMacdDecision "BTCUSDT" [] [] []).score = 0 := by
  have h : computeDailyBiasFromSeries (computeMacdSeries []) = .NEUTRAL := by
    with_unfolding_all decide
  have hm := macd_neutral_bias_yields_hold "BTCUSDT" [] [] [] [] [] h
  exact ⟨h, hm.1, hm.2.1⟩

/-- The three trailing entries of a list extended by three elements. -/
theorem get_last_three (l : List MacdPoint) (a b c : MacdPoint) :
    (l ++ [a, b, c]).get? ((l ++ [a, b, c]).length - 3) = some a ∧
    (l ++ [a, b, c]).get? ((l ++ [a, b, c]).length - 2) = some b ∧
    (l ++ [a, b, c]).get? ((l ++ [a, b, c]).length - 1) = some c := by
  have hlen : (l ++ [a, b, c]).length = l.length + 3 := by simp
  refine ⟨?_, ?_, ?_⟩ <;> rw [hlen]
  · rw [show l.length + 3 - 3 = l.length from by omega,
      List.get?_append_right (le_refl l.length)]
    simp
  · rw [show l.length + 3 - 2 = l.length + 1 from by omega,
      List.get?_append_right (by omega)]
    simp [show l.length + 1 - l.length = 1 from by omega]
  · rw [show l.length + 3 - 1 = l.length + 2 from by omega,
      List.get?_append_right (by omega)]
    simp [show l.length + 2 - l.length = 2 from by omega]

/-- C8: Gate 3 passes exactly when the last three H1 histogram bars are
all strictly of the trigger sign and at least one consecutive pair
strictly expands in magnitude; and whenever Gate 3 reports failure the
MACD decision is HOLD. -/
theorem h1_histogram_gate_characterization :
    (∀ (l : List MacdPoint) (a b c : MacdPoint),
      (confirmH1Histogram (l ++ [a, b, c]) .LONG = true ↔
        (0 < a.histogram ∧ 0 < b.histogram ∧ 0 < c.histogram ∧
         (|a.histogram| < |b.histogram| ∨ |b.histogram| < |c.histogram|))) ∧
      (confirmH1Histogram (l ++ [a, b, c]) .SHORT = true ↔
        (a.histogram < 0 ∧ b.histogram < 0 ∧ c.histogram < 0 ∧
         (|a.histogram| < |b.histogram| ∨ |b.histogram| < |c.histogram|))))
    ∧ (∀ (sym : String) (d1 h4 h1c : List Candle),
        confirmH1Histogram (computeMacdSeries h1c)
          (computeH4Signal (computeMacdSeries h4)
            (computeDailyBiasFromSeries (computeMacdSeries d1))).direction = false →
        (computeMacdDecision sym d1 h4 h1c).signal = .HOLD) := by
  constructor
  · intro l a b c
    have hnot : ¬((l ++ [a, b, c]).length < 3) := by
      simp
    obtain ⟨ha, hb, hc⟩ := get_last_three l a b c
    constructor
    · simp only [confirmH1Histogram, hnot, if_false, ha, hb, hc, Option.map_some,
        Option.getD_some]
      by_cases hpos : 0 < a.histogram ∧ 0 < b.histogram ∧ 0 < c.histogram
      · rw [abs_of_pos hpos.1, abs_of_pos hpos.2.1, abs_of_pos hpos.2.2]
        by_cases hab : a.histogram < b.histogram <;>
          by_cases hbc : b.histogram < c.histogram <;>
          simp [hpos, hab, hbc, hpos.1, hpos.2.1, hpos.2.2]
      · refine iff_of_false (by simp [hpos]) (fun hr => hpos ⟨hr.1, hr.2.1, hr.2.2.1⟩)
    · simp only [confirmH1Histogram, hnot, if_false, ha, hb, hc, Option.map_some,
        Option.getD_some]
      by_cases hneg : a.histogram < 0 ∧ b.histogram < 0 ∧ c.histogram < 0
      · rw [abs_of_neg hneg.1, abs_of_neg hneg.2.1, abs_of_neg hneg.2.2]
        by_cases hab : b.histogram < a.histogram <;>
          by_cases hbc : c.histogram < b.histogram <;>
          simp [hneg, hab, hbc, hneg.1, hneg.2.1, hneg.2.2, neg_lt_neg_iff]
      · refine iff_of_false (by simp [hneg]) (fun hr => hneg ⟨hr.1, hr.2.1, hr.2.2.1⟩)
  · intro sym d1 h4 h1c hconf
    by_cases hd1 : d1.length < 26
    · simp [computeMacdDecision, hd1]
    · simp only [computeMacdDecision, hd1, if_false]
      split_ifs <;> rfl

/-- Witness for C8: three strictly positive, strictly increasing
histogram bars pass the LONG gate, and on empty data Gate 3 fails and the
decision is HOLD. -/
theorem h1_histogram_gate_characterization_witness :
    confirmH1Histogram [⟨0, 0, 0, 1⟩, ⟨1, 0, 0, 2⟩, ⟨2, 0, 0, 3⟩] .LONG = true ∧
    (computeMacdDecision "BTCUSDT" [] [] []).signal = .HOLD := by
  constructor
  · exact ((h1_histogram_gate_characterization.1 [] ⟨0, 0, 0, 1⟩ ⟨1, 0, 0, 2⟩
      ⟨2, 0, 0, 3⟩).1).mpr (by with_unfolding_all decide)
  · exact h1_histogram_gate_characterization.2 "BTCUSDT" [] [] []
      (by with_unfolding_all decide)

/-- C3 counterexample: a SELL decision is not converted into an order and
not submitted — the executor records a failed result (reason SELL logic
not implemented), refuting the claim that every BUY or SELL decision is
quantized and submitted. -/
theorem executeDecisions_sell_not_submitted :
    (executeDecisions envW3 [] [dSell]).1 = [.sellNotImplemented "BTCUSDT"] := by
  with_unfolding_all decide

/-- C3 amended: a BUY decision is quantized and submitted — the risk-based
quantity is floored to the step size, rejected as too small below minQty,
and raised to the buffered minimum notional when its value is below
minNotional times the buffer — while a SELL decision only yields a failed
result and a HOLD none. -/
theorem executor_quantization_and_sell_skip :
    (∀ (env : ExecEnv) (m : CooldownMap) (d : Decision) (rawQuantity : ℚ),
      (isSymbolOnCooldown m d.symbol env.now).1 = false →
      env.baseBalance ≠ 0 →
      calculateOrderQuantity d.currentPrice (d.currentPrice * (1 - env.stopLossPercent / 100))
        (env.baseBalance * env.maxTradingCapitalPercent / 100 * env.riskPerTradePercent / 100) =
        some rawQuantity →
      ((roundToStepSize rawQuantity env.filters.stepSize < env.filters.minQty →
          (executeBuyOrder env m d).1 = .tooSmall) ∧
       (∀ q sl tp, (executeBuyOrder env m d).1 = .submitted q sl tp →
          q = if roundToStepSize rawQuantity env.filters.stepSize * d.currentPrice <
                env.filters.minNotional * MIN_NOTIONAL_BUFFER
              then ((⌈env.filters.minNotional * MIN_NOTIONAL_BUFFER / d.currentPrice /
                      env.filters.stepSize⌉ : ℤ) : ℚ) * env.filters.stepSize
              else roundToStepSize rawQuantity env.filters.stepSize)))
    ∧ (∀ (env : ExecEnv) (m : CooldownMap) (d : Decision) (rest : List Decision),
        d.signal = .SELL →
        (executeDecisions env m (d :: rest)).1 =
          .sellNotImplemented d.symbol :: (executeDecisions env m rest).1)
    ∧ (∀ (env : ExecEnv) (m : CooldownMap) (d : Decision) (rest : List Decision),
        d.signal = .BUY →
        (executeDecisions env m (d :: rest)).1 =
          .buyResult d.symbol (executeBuyOrder env m d).1 ::
            (executeDecisions env (executeBuyOrder env m d).2 rest).1) := by
  refine ⟨?_, ?_, ?_⟩
  · intro env m d rq hcd hbal hq
    constructor
    · intro hsmall
      simp only [executeBuyOrder, hcd, Bool.false_eq_true, if_false, if_neg hbal, hq]
      simp [hsmall]
    · intro q sl tp hsub
      simp only [executeBuyOrder, hcd, Bool.false_eq_true, if_false, if_neg hbal, hq] at hsub
      by_cases hsmall : roundToStepSize rq env.filters.stepSize < env.filters.minQty
      · simp [hsmall] at hsub
      · simp only [hsmall, if_false] at hsub
        split_ifs at hsub ⊢ <;> simp at hsub <;> exact hsub.1.symm
  · intro env m d rest hsig
    simp [executeDecisions, hsig]
  · intro env m d rest hsig
    simp [executeDecisions, hsig]

/-- Witness for C3: with the too-small environment the BUY is rejected as
too small, and a SELL decision produces the failed result. -/
theorem executor_quantization_and_sell_skip_witness :
    (executeBuyOrder envW3 [] dW3).1 = .tooSmall ∧
    (executeDecisions envW3 [] [dSell]).1 =
      .sellNotImplemented dSell.symbol :: (executeDecisions envW3 [] []).1 := by
  constructor
  · exact (executor_quantization_and_sell_skip.1 envW3 [] dW3 (1 / 1000)
      (by with_unfolding_all decide) (by with_unfolding_all decide)
      (by with_unfolding_all decide)).1 (by with_unfolding_all decide)
  · exact executor_quantization_and_sell_skip.2.1 envW3 [] dSell []
      (by with_unfolding_all decide)

/-- C4 counterexample: with price one hundred, raw quantity one twentieth
(notional five) and minNotional ten, the submitted quantity is three
twenty-fifths (0.12, notional twelve), not one tenth (notional ten) as
the claim states. -/
theorem minNotional_not_raised_to_bare_minimum :
    calculateOrderQuantity dC4.currentPrice 90
      (envC4.baseBalance * envC4.maxTradingCapitalPercent / 100 *
        envC4.riskPerTradePercent / 100) = some (1 / 20) ∧
    roundToStepSize (1 / 20) envC4.filters.stepSize = 1 / 20 ∧
    ((1 : ℚ) / 20) * dC4.currentPrice = 5 ∧
    envC4.filters.minNotional = 10 ∧
    (executeBuyOrder envC4 [] dC4).1 = .submitted (3 / 25) 90 108 ∧
    (3 / 25 : ℚ) ≠ 1 / 10 ∧
    (3 / 25 : ℚ) * dC4.currentPrice = 12 := by
  with_unfolding_all decide

/-- C4 amended: the same input raises the quantity to exactly the
buffered minimum notional — minNotional times the 1.2 buffer, twelve —
giving quantity 0.12. -/
theorem minNotional_raised_to_buffered_minimum :
    (executeBuyOrder envC4 [] dC4).1 = .submitted (3 / 25) 90 108 ∧
    (3 / 25 : ℚ) * dC4.currentPrice = envC4.filters.minNotional * MIN_NOTIONAL_BUFFER ∧
    envC4.filters.minNotional * MIN_NOTIONAL_BUFFER = 12 := by
  with_unfolding_all decide
